import Mathlib

/-!
Shallow embedding of the todo-store core of the `cafeatonce` repository
(`src/stores/todoStore.ts` together with the utility and type modules it
imports).  JavaScript `Date` values are modelled by `Nat` millisecond
timestamps; `Math.random`-based `generateId` results and the current time are
passed to each operation as explicit parameters (the single-threaded model
executes one operation at one instant); `setTimeout` callbacks scheduled by
the notification queue are recorded in a `timers` field and fired explicitly.
-/

namespace TodoApp

/-- `Priority` enum from `types.ts`: `low | medium | high | urgent`. -/
inductive Priority where
  | low
  | medium
  | high
  | urgent
deriving DecidableEq, Repr

/-- `Todo` record from `types.ts`.  Optional fields are `Option`s; `Date`
fields are `Nat` timestamps (`getTime`). -/
structure Todo where
  id : String
  title : String
  description : Option String
  completed : Bool
  priority : Priority
  category : String
  dueDate : Option Nat
  createdAt : Nat
  updatedAt : Nat
  tags : List String
deriving DecidableEq, Repr

/-- `Category` record from `types.ts`. -/
structure Category where
  id : String
  name : String
  color : String
  icon : Option String
  createdAt : Nat
deriving DecidableEq, Repr

/-- Notification severity, the `type` field of `NotificationState`. -/
inductive NotifType where
  | success
  | error
  | warning
  | info
deriving DecidableEq, Repr

/-- `NotificationState` record from `types.ts`. -/
structure NotificationState where
  id : String
  type : NotifType
  title : String
  message : Option String
  duration : Option Nat
  persistent : Option Bool
deriving DecidableEq, Repr

/-- `Omit<NotificationState, 'id'>`: the argument of `addNotification`. -/
structure NotifDraft where
  type : NotifType
  title : String
  message : Option String
  duration : Option Nat
  persistent : Option Bool
deriving DecidableEq, Repr

/-- The status selector of `TodoFilter`. -/
inductive Status where
  | all
  | active
  | completed
deriving DecidableEq, Repr

/-- `TodoFilter` record from `types.ts`; every criterion is optional. -/
structure TodoFilter where
  status : Option Status
  priority : Option Priority
  category : Option String
  search : Option String
  tag : Option String
deriving DecidableEq, Repr

/-- `CreateTodoForm` record from `types.ts`. -/
structure CreateTodoForm where
  title : String
  description : Option String
  priority : Priority
  category : String
  dueDate : Option Nat
  tags : List String
deriving DecidableEq, Repr

/-- `UpdateTodoForm` from `types.ts`: every `CreateTodoForm` field optional,
plus an optional `completed` flag.  A `none` field models an absent key of
the partial-update object (object spread only overrides present keys). -/
structure UpdateTodoForm where
  title : Option String := none
  description : Option String := none
  priority : Option Priority := none
  category : Option String := none
  dueDate : Option Nat := none
  tags : Option (List String) := none
  completed : Option Bool := none
deriving DecidableEq, Repr

/-- The four always-present priority buckets of `TodoStats.byPriority`. -/
structure ByPriority where
  low : Nat
  medium : Nat
  high : Nat
  urgent : Nat
deriving DecidableEq, Repr

/-- `TodoStats` record from `types.ts`.  `byCategory` is the map
`Record<string, number>` read as a total function with default `0`
(an absent key reads as `undefined`, which arithmetic-wise behaves as the
never-yet-incremented count). -/
structure TodoStats where
  total : Nat
  completed : Nat
  pending : Nat
  overdue : Nat
  byPriority : ByPriority
  byCategory : String → Nat

/-- Sort keys accepted by `sortTodos`. -/
inductive SortBy where
  | createdAt
  | dueDate
  | priority
  | title
deriving DecidableEq, Repr

/-- Sort directions accepted by `sortTodos`. -/
inductive SortOrder where
  | asc
  | desc
deriving DecidableEq, Repr

/-- JavaScript truthiness of an optional string (`undefined` and `""` are
falsy). -/
def truthyStr : Option String → Bool
  | none => false
  | some s => s ≠ ""

/-- JavaScript truthiness of an optional boolean (`undefined` and `false`
are falsy). -/
def truthyBool : Option Bool → Bool
  | none => false
  | some b => b

/-- JavaScript truthiness of an optional number (`undefined` and `0` are
falsy). -/
def truthyNum : Option Nat → Bool
  | none => false
  | some n => n ≠ 0

/-- `utils.ts` `getPriorityValue`: the fixed rank table
low 1, medium 2, high 3, urgent 4.  Result is `Int` because it feeds the
subtraction-based comparator. -/
def getPriorityValue : Priority → Int
  | .low => 1
  | .medium => 2
  | .high => 3
  | .urgent => 4

/-- Three-way string comparison standing in for `localeCompare` (code-point
order; no claim depends on the locale table). -/
def strCmp (a b : String) : Int :=
  if a < b then -1 else if b < a then 1 else 0

/-- The `switch (sortBy)` body of `utils.ts` `sortTodos`: the raw comparison
number before the direction flip. -/
def todoComparison (sortBy : SortBy) (a b : Todo) : Int :=
  match sortBy with
  | .createdAt => (a.createdAt : Int) - (b.createdAt : Int)
  | .dueDate =>
    match a.dueDate, b.dueDate with
    | none, none => 0
    | none, some _ => 1
    | some _, none => -1
    | some x, some y => (x : Int) - (y : Int)
  | .priority => getPriorityValue b.priority - getPriorityValue a.priority
  | .title => strCmp a.title b.title

/-- `return sortOrder === 'asc' ? comparison : -comparison`. -/
def todoCmp (sortBy : SortBy) (sortOrder : SortOrder) (a b : Todo) : Int :=
  match sortOrder with
  | .asc => todoComparison sortBy a b
  | .desc => - todoComparison sortBy a b

/-- The order produced by the comparator: `a` may precede `b` when the
comparator result is at most `0`. -/
def sortLe (sortBy : SortBy) (sortOrder : SortOrder) (a b : Todo) : Prop :=
  todoCmp sortBy sortOrder a b ≤ 0

instance (sortBy : SortBy) (sortOrder : SortOrder) :
    DecidableRel (sortLe sortBy sortOrder) := fun a b =>
  inferInstanceAs (Decidable (todoCmp sortBy sortOrder a b ≤ 0))

/-- `utils.ts` `sortTodos`: `[...todos].sort(comparator)` — JavaScript
`Array.prototype.sort` is a stable comparator sort; for the total
transitive comparators built here it is modelled by the stable
`List.insertionSort` on "comparator result at most 0". -/
def sortTodos (todos : List Todo) (sortBy : SortBy)
    (sortOrder : SortOrder := .asc) : List Todo :=
  List.insertionSort (sortLe sortBy sortOrder) todos

/-- `needle` occurs as a prefix of `hay` (character lists). -/
def charsHasPre : List Char → List Char → Bool
  | [], _ => true
  | _ :: _, [] => false
  | a :: as, b :: bs => a = b && charsHasPre as bs

/-- `String.prototype.includes`: `needle` occurs as a contiguous substring
of `hay` (character lists). -/
def charsIncludes (needle : List Char) : List Char → Bool
  | [] => charsHasPre needle []
  | c :: rest => charsHasPre needle (c :: rest) || charsIncludes needle rest

/-- `hay.includes(needle)` on strings. -/
def strIncludes (hay needle : String) : Bool :=
  charsIncludes needle.data hay.data

/-- The search-criterion test of `filterTodos`: the term is found
case-insensitively in the title or in the (optional) description. -/
def searchMatches (search : String) (todo : Todo) : Bool :=
  let searchLower := search.toLower
  let matchesTitle := strIncludes todo.title.toLower searchLower
  let matchesDescription :=
    match todo.description with
    | some d => strIncludes d.toLower searchLower
    | none => false
  matchesTitle || matchesDescription

/-- The per-item predicate of `utils.ts` `filterTodos`: the chain of early
`return false` checks, including the JavaScript truthiness guards
(`filter.priority && …`, `filter.category && …`, `filter.search`,
`filter.tag && …`). -/
def todoPasses (filter : TodoFilter) (todo : Todo) : Bool :=
  if filter.status = some .active ∧ todo.completed then false
  else if filter.status = some .completed ∧ todo.completed = false then false
  else if filter.priority.isSome ∧ filter.priority ≠ some todo.priority then false
  else if truthyStr filter.category ∧ filter.category ≠ some todo.category then false
  else if truthyStr filter.search ∧
      (filter.search.map (fun s => searchMatches s todo)) = some false then false
  else if truthyStr filter.tag ∧
      (filter.tag.map (fun t => todo.tags.contains t)) = some false then false
  else true

/-- `utils.ts` `filterTodos`: `todos.filter(predicate)`. -/
def filterTodos (todos : List Todo) (filter : TodoFilter) : List Todo :=
  todos.filter (todoPasses filter)

/-- The zero-initialized `stats` literal of `calculateTodoStats` (the
`total` field is set up front from `todos.length`). -/
def initialStats (todos : List Todo) : TodoStats where
  total := todos.length
  completed := 0
  pending := 0
  overdue := 0
  byPriority := ⟨0, 0, 0, 0⟩
  byCategory := fun _ => 0

/-- One iteration of the `todos.forEach` body of `calculateTodoStats`.
`isOverdueAt` abstracts `utils.ts` `isOverdue` (it depends on the current
clock via `isPast`/`isToday`). -/
def statsStep (isOverdueAt : Nat → Bool) (stats : TodoStats) (todo : Todo) :
    TodoStats :=
  let stats :=
    if todo.completed then
      { stats with completed := stats.completed + 1 }
    else
      let stats := { stats with pending := stats.pending + 1 }
      match todo.dueDate with
      | some due =>
        if isOverdueAt due then { stats with overdue := stats.overdue + 1 }
        else stats
      | none => stats
  let stats :=
    match todo.priority with
    | .low => { stats with byPriority.low := stats.byPriority.low + 1 }
    | .medium => { stats with byPriority.medium := stats.byPriority.medium + 1 }
    | .high => { stats with byPriority.high := stats.byPriority.high + 1 }
    | .urgent => { stats with byPriority.urgent := stats.byPriority.urgent + 1 }
  { stats with
    byCategory := fun c =>
      if c = todo.category then stats.byCategory todo.category + 1
      else stats.byCategory c }

/-- `utils.ts` `calculateTodoStats`: single pass over the collection. -/
def calculateTodoStats (isOverdueAt : Nat → Bool) (todos : List Todo) :
    TodoStats :=
  todos.foldl (statsStep isOverdueAt) (initialStats todos)

/-- The `defaultCategories` literal of `todoStore.ts`; their `createdAt`
stamps share the module-initialisation instant `t0`. -/
def defaultCategories (t0 : Nat) : List Category :=
  [ { id := "personal", name := "Personal", color := "#3B82F6",
      icon := some "User", createdAt := t0 },
    { id := "work", name := "Work", color := "#F59E0B",
      icon := some "Briefcase", createdAt := t0 },
    { id := "shopping", name := "Shopping", color := "#10B981",
      icon := some "ShoppingCart", createdAt := t0 },
    { id := "health", name := "Health", color := "#EF4444",
      icon := some "Heart", createdAt := t0 } ]

/-- The `defaultFilters` literal: `{ status: 'all' }`. -/
def defaultFilters : TodoFilter :=
  { status := some .all, priority := none, category := none,
    search := none, tag := none }

/-- The state slice of the zustand store that the verified operations
touch, plus a `timers` ledger of the pending `setTimeout` auto-dismiss
callbacks (notification id paired with its delay) that `addNotification`
schedules. -/
structure Store where
  todos : List Todo
  categories : List Category
  filters : TodoFilter
  notifications : List NotificationState
  timers : List (String × Nat)
deriving DecidableEq, Repr

/-- The store's initial state. -/
def initialStore (t0 : Nat) : Store where
  todos := []
  categories := defaultCategories t0
  filters := defaultFilters
  notifications := []
  timers := []

/-- `getTodoById`: `todos.find(todo => todo.id === id)`. -/
def getTodoById (id : String) (s : Store) : Option Todo :=
  s.todos.find? fun todo => decide (todo.id = id)

/-- `getCategoryById`: `categories.find(category => category.id === id)`. -/
def getCategoryById (id : String) (s : Store) : Option Category :=
  s.categories.find? fun category => decide (category.id = id)

/-- `notification.duration || 5000`: the stored duration after the
JavaScript `||` fallback (both `undefined` and `0` take the fallback). -/
def durationOrDefault : Option Nat → Nat
  | none => 5000
  | some 0 => 5000
  | some d => d

/-- `addNotification` of `todoStore.ts`.  `freshId` stands for the
`generateId()` result.  The trailing `setTimeout` is recorded in `timers`
when its guard `!notification.persistent && newNotification.duration`
holds. -/
def addNotification (freshId : String) (notification : NotifDraft)
    (s : Store) : Store :=
  let newNotification : NotificationState :=
    { id := freshId
      type := notification.type
      title := notification.title
      message := notification.message
      duration := some (durationOrDefault notification.duration)
      persistent := notification.persistent }
  let s1 := { s with notifications := s.notifications ++ [newNotification] }
  if truthyBool notification.persistent = false ∧
      truthyNum newNotification.duration then
    { s1 with
      timers := s1.timers ++ [(newNotification.id, durationOrDefault notification.duration)] }
  else s1

/-- `removeNotification`: `notifications.filter(notif => notif.id !== id)`. -/
def removeNotification (id : String) (s : Store) : Store :=
  { s with notifications := s.notifications.filter fun notif => decide (notif.id ≠ id) }

/-- A pending auto-dismiss timer firing: the scheduled callback body is
`removeNotification(id)`; the one-shot timer is consumed. -/
def fireTimer (timer : String × Nat) (s : Store) : Store :=
  { removeNotification timer.1 s with timers := s.timers.erase timer }

/-- `addTodo` of `todoStore.ts`.  `freshId` stands for the `generateId()`
result, `now` for the `new Date()` stamps of this tick, `nid` for the id
generated for the success notification. -/
def addTodo (freshId nid : String) (now : Nat) (todoData : CreateTodoForm)
    (s : Store) : Store :=
  let newTodo : Todo :=
    { id := freshId
      title := todoData.title
      description := todoData.description
      priority := todoData.priority
      category := todoData.category
      completed := false
      createdAt := now
      updatedAt := now
      dueDate := todoData.dueDate
      tags := todoData.tags }
  let s1 := { s with todos := s.todos ++ [newTodo] }
  addNotification nid
    { type := .success
      title := "Todo created"
      message := some ("\"" ++ newTodo.title ++ "\" has been added to your list")
      duration := some 3000
      persistent := none }
    s1

/-- The object spread `{ ...todo, ...updates, updatedAt: new Date() }`:
each present key of the partial update overrides the field. -/
def applyUpdates (updates : UpdateTodoForm) (now : Nat) (todo : Todo) : Todo :=
  { todo with
    title := updates.title.getD todo.title
    description := (updates.description.map some).getD todo.description
    priority := updates.priority.getD todo.priority
    category := updates.category.getD todo.category
    dueDate := (updates.dueDate.map some).getD todo.dueDate
    tags := updates.tags.getD todo.tags
    completed := updates.completed.getD todo.completed
    updatedAt := now }

/-- `updateTodo` of `todoStore.ts`: merge onto the matching todos, then
re-read the item and emit a notification only if it exists. -/
def updateTodo (nid : String) (now : Nat) (id : String)
    (updates : UpdateTodoForm) (s : Store) : Store :=
  let s1 :=
    { s with
      todos := s.todos.map fun todo =>
        if todo.id = id then applyUpdates updates now todo else todo }
  match getTodoById id s1 with
  | some todo =>
    addNotification nid
      { type := .success
        title := "Todo updated"
        message := some ("\"" ++ todo.title ++ "\" has been updated")
        duration := some 2000
        persistent := none }
      s1
  | none => s1

/-- `toggleTodo` of `todoStore.ts`: flip via `updateTodo`, then emit the
completed/reopened notification.  `nidU` and `nidT` are the generated ids
for the inner and outer notifications. -/
def toggleTodo (nidU nidT : String) (now : Nat) (id : String) (s : Store) :
    Store :=
  match getTodoById id s with
  | none => s
  | some todo =>
    let newCompletedState := !todo.completed
    let s1 := updateTodo nidU now id { completed := some newCompletedState } s
    addNotification nidT
      { type := .success
        title := if newCompletedState then "Todo completed" else "Todo reopened"
        message := some ("\"" ++ todo.title ++ "\" marked as " ++
          (if newCompletedState then "completed" else "pending"))
        duration := some 2000
        persistent := none }
      s1

/-- `deleteCategory` of `todoStore.ts`: drop the category, reassign the
todos that referenced it to `'personal'`, and emit a warning notification
when the category existed. -/
def deleteCategory (nid : String) (now : Nat) (id : String) (s : Store) :
    Store :=
  let category := getCategoryById id s
  let s1 :=
    { s with
      categories := s.categories.filter fun cat => decide (cat.id ≠ id)
      todos := s.todos.map fun todo =>
        if todo.category = id then
          { todo with category := "personal", updatedAt := now }
        else todo }
  match category with
  | some cat =>
    addNotification nid
      { type := .warning
        title := "Category deleted"
        message := some ("\"" ++ cat.name ++
          "\" category has been removed. Todos moved to Personal.")
        duration := some 3000
        persistent := none }
      s1
  | none => s1

/-- The shape `JSON.parse` can hand to `importData` for one of the two
optional collections: the key may be absent (or otherwise falsy), present
but not an array, or an array. -/
inductive JsArrayField (α : Type) where
  | absent
  | notAnArray
  | isArray (xs : List α)
deriving DecidableEq, Repr

/-- A successfully parsed import document: its `todos` and `categories`
keys as `importData` inspects them. -/
structure ImportDoc where
  todos : JsArrayField Todo
  categories : JsArrayField Category
deriving DecidableEq, Repr

/-- `importData` of `todoStore.ts`.  `parsed = none` models a
`JSON.parse` throw (the `catch` branch); `some doc` models a successful
parse.  Each array-valued key is appended to the existing collection, and
the success notification is emitted unconditionally after a successful
parse. -/
def importData (nid : String) (parsed : Option ImportDoc) (s : Store) :
    Store :=
  match parsed with
  | some data =>
    let s1 :=
      match data.todos with
      | .isArray xs => { s with todos := s.todos ++ xs }
      | _ => s
    let s2 :=
      match data.categories with
      | .isArray xs => { s1 with categories := s1.categories ++ xs }
      | _ => s1
    addNotification nid
      { type := .success
        title := "Data imported"
        message := some "Your data has been successfully imported"
        duration := some 3000
        persistent := none }
      s2
  | none =>
    addNotification nid
      { type := .error
        title := "Import failed"
        message := some "Failed to import data. Please check the file format."
        duration := some 5000
        persistent := none }
      s

/-! ### Properties of the comparator orders -/

theorem sortLe_dueDate_trans (ord : SortOrder) : ∀ a b c : Todo,
    sortLe .dueDate ord a b → sortLe .dueDate ord b c →
    sortLe .dueDate ord a c := by
  intro a b c hab hbc
  cases ord <;>
    (simp only [sortLe, todoCmp, todoComparison] at *
     cases hA : a.dueDate <;> cases hB : b.dueDate <;> cases hC : c.dueDate <;>
       simp_all <;> omega)

theorem sortLe_dueDate_total (ord : SortOrder) : ∀ a b : Todo,
    sortLe .dueDate ord a b ∨ sortLe .dueDate ord b a := by
  intro a b
  cases ord <;>
    (simp only [sortLe, todoCmp, todoComparison]
     cases hA : a.dueDate <;> cases hB : b.dueDate <;> simp_all <;> omega)

theorem sortLe_priority_trans (ord : SortOrder) : ∀ a b c : Todo,
    sortLe .priority ord a b → sortLe .priority ord b c →
    sortLe .priority ord a c := by
  intro a b c hab hbc
  cases ord <;> simp only [sortLe, todoCmp, todoComparison] at * <;> omega

theorem sortLe_priority_total (ord : SortOrder) : ∀ a b : Todo,
    sortLe .priority ord a b ∨ sortLe .priority ord b a := by
  intro a b
  cases ord <;> simp only [sortLe, todoCmp, todoComparison] <;> omega

/-- An undated sample todo. -/
def undatedTodo : Todo :=
  { id := "u", title := "Undated", description := none, completed := false,
    priority := .low, category := "personal", dueDate := none,
    createdAt := 0, updatedAt := 0, tags := [] }

/-- A dated sample todo. -/
def datedTodo : Todo :=
  { undatedTodo with id := "d", title := "Dated", dueDate := some 10 }

/-- **C3** (amended).  Sorting by due time with direction `'asc'` places
every item without a due time after every dated item; but the direction
flip applies to the whole comparison result, so with direction `'desc'`
the undated items come first instead.  Both outputs are permutations of
the input. -/
theorem dueDate_sort_undated_placement (todos : List Todo) :
    ((sortTodos todos .dueDate .asc).Pairwise
      fun a b => a.dueDate = none → b.dueDate = none) ∧
    ((sortTodos todos .dueDate .desc).Pairwise
      fun a b => b.dueDate = none → a.dueDate = none) ∧
    (sortTodos todos .dueDate .asc).Perm todos ∧
    (sortTodos todos .dueDate .desc).Perm todos := by
  refine ⟨?_, ?_, List.perm_insertionSort _ _, List.perm_insertionSort _ _⟩
  · have hs := @List.sorted_insertionSort Todo (sortLe .dueDate .asc) _
      ⟨sortLe_dueDate_total .asc⟩ ⟨sortLe_dueDate_trans .asc⟩ todos
    refine hs.imp ?_
    intro a b h hA
    simp only [sortLe, todoCmp, todoComparison, hA] at h
    cases hB : b.dueDate with
    | none => rfl
    | some y => simp [hB] at h
  · have hs := @List.sorted_insertionSort Todo (sortLe .dueDate .desc) _
      ⟨sortLe_dueDate_total .desc⟩ ⟨sortLe_dueDate_trans .desc⟩ todos
    refine hs.imp ?_
    intro a b h hB
    simp only [sortLe, todoCmp, todoComparison, hB] at h
    cases hA : a.dueDate with
    | none => rfl
    | some x => simp [hA] at h

/-- **C3** (counterexample).  With direction `'desc'` the undated item is
placed before the dated one: the claim's "no due time sorts after,
regardless of direction" fails on the code. -/
theorem dueDate_sort_desc_undated_first :
    sortTodos [undatedTodo, datedTodo] .dueDate .desc =
      [undatedTodo, datedTodo] ∧
    undatedTodo.dueDate = none ∧ datedTodo.dueDate = some 10 ∧
    ¬ ((sortTodos [undatedTodo, datedTodo] .dueDate .desc).Pairwise
      fun a b => a.dueDate = none → b.dueDate = none) := by
  refine ⟨rfl, rfl, rfl, ?_⟩
  decide

/-- **C5**.  Sorting by priority with direction `'asc'` yields descending
priority rank (the comparator is "higher rank first" before the direction
flip), `'desc'` yields ascending rank, and the rank table is
low 1, medium 2, high 3, urgent 4. -/
theorem priority_sort_direction (todos : List Todo) :
    ((sortTodos todos .priority .asc).Pairwise
      fun a b => getPriorityValue b.priority ≤ getPriorityValue a.priority) ∧
    ((sortTodos todos .priority .desc).Pairwise
      fun a b => getPriorityValue a.priority ≤ getPriorityValue b.priority) ∧
    (sortTodos todos .priority .asc).Perm todos ∧
    (sortTodos todos .priority .desc).Perm todos ∧
    getPriorityValue .low = 1 ∧ getPriorityValue .medium = 2 ∧
    getPriorityValue .high = 3 ∧ getPriorityValue .urgent = 4 := by
  refine ⟨?_, ?_, List.perm_insertionSort _ _, List.perm_insertionSort _ _,
    rfl, rfl, rfl, rfl⟩
  · have hs := @List.sorted_insertionSort Todo (sortLe .priority .asc) _
      ⟨sortLe_priority_total .asc⟩ ⟨sortLe_priority_trans .asc⟩ todos
    refine hs.imp ?_
    intro a b h
    simp only [sortLe, todoCmp, todoComparison] at h
    omega
  · have hs := @List.sorted_insertionSort Todo (sortLe .priority .desc) _
      ⟨sortLe_priority_total .desc⟩ ⟨sortLe_priority_trans .desc⟩ todos
    refine hs.imp ?_
    intro a b h
    simp only [sortLe, todoCmp, todoComparison] at h
    omega

/-! ### Filtering and statistics -/

/-- The empty filter spec `{}`: no criterion set. -/
def emptyFilter : TodoFilter :=
  { status := none, priority := none, category := none,
    search := none, tag := none }

/-- **C6**.  `filterTodos` is a pure narrowing: the result is a sublist of
the input (hence every returned item occurs in the input, in input order),
and the empty spec — every criterion absent — returns the input list
unchanged. -/
theorem filterTodos_narrowing (todos : List Todo) (flt : TodoFilter) :
    List.Sublist (filterTodos todos flt) todos ∧
    (∀ t ∈ filterTodos todos flt, t ∈ todos) ∧
    filterTodos todos emptyFilter = todos := by
  refine ⟨List.filter_sublist todos, fun t ht => List.mem_of_mem_filter ht, ?_⟩
  apply List.filter_eq_self.mpr
  intro t _
  simp [todoPasses, emptyFilter, truthyStr]

theorem statsStep_counts (isOv : Nat → Bool) (st : TodoStats) (t : Todo) :
    (statsStep isOv st t).completed + (statsStep isOv st t).pending =
      st.completed + st.pending + 1 ∧
    (statsStep isOv st t).byPriority.low + (statsStep isOv st t).byPriority.medium +
      (statsStep isOv st t).byPriority.high + (statsStep isOv st t).byPriority.urgent =
      st.byPriority.low + st.byPriority.medium +
        st.byPriority.high + st.byPriority.urgent + 1 ∧
    (statsStep isOv st t).total = st.total := by
  cases hc : t.completed <;> cases hd : t.dueDate <;> cases hp : t.priority <;>
    simp [statsStep, hc, hd, hp] <;> first
    | omega
    | (split <;> (try simp) <;> omega)

theorem foldl_statsStep (isOv : Nat → Bool) :
    ∀ (l : List Todo) (st : TodoStats),
    ((l.foldl (statsStep isOv) st).completed +
        (l.foldl (statsStep isOv) st).pending =
      st.completed + st.pending + l.length) ∧
    ((l.foldl (statsStep isOv) st).byPriority.low +
        (l.foldl (statsStep isOv) st).byPriority.medium +
        (l.foldl (statsStep isOv) st).byPriority.high +
        (l.foldl (statsStep isOv) st).byPriority.urgent =
      st.byPriority.low + st.byPriority.medium +
        st.byPriority.high + st.byPriority.urgent + l.length) ∧
    ((l.foldl (statsStep isOv) st).total = st.total)
  | [], st => by simp
  | t :: l, st => by
    obtain ⟨ih1, ih2, ih3⟩ := foldl_statsStep isOv l (statsStep isOv st t)
    obtain ⟨hs1, hs2, hs3⟩ := statsStep_counts isOv st t
    simp only [List.foldl_cons, List.length_cons] at *
    omega

/-- **C7**.  The statistics invariants: `completed + pending = total` and
the four (always-present, zero-initialized) priority buckets sum to
`total`, for every collection and every overdue clock. -/
theorem calculateTodoStats_invariants (isOv : Nat → Bool) (todos : List Todo) :
    (calculateTodoStats isOv todos).completed +
        (calculateTodoStats isOv todos).pending =
      (calculateTodoStats isOv todos).total ∧
    (calculateTodoStats isOv todos).byPriority.low +
        (calculateTodoStats isOv todos).byPriority.medium +
        (calculateTodoStats isOv todos).byPriority.high +
        (calculateTodoStats isOv todos).byPriority.urgent =
      (calculateTodoStats isOv todos).total := by
  obtain ⟨h1, h2, h3⟩ := foldl_statsStep isOv todos (initialStats todos)
  simp only [calculateTodoStats, initialStats] at *
  omega

/-! ### Store helper lemmas -/

theorem addNotification_todos (fid : String) (n : NotifDraft) (s : Store) :
    (addNotification fid n s).todos = s.todos := by
  simp only [addNotification]
  split <;> rfl

theorem addNotification_categories (fid : String) (n : NotifDraft) (s : Store) :
    (addNotification fid n s).categories = s.categories := by
  simp only [addNotification]
  split <;> rfl

theorem addNotification_notifications (fid : String) (n : NotifDraft)
    (s : Store) :
    (addNotification fid n s).notifications = s.notifications ++
      [{ id := fid, type := n.type, title := n.title, message := n.message,
         duration := some (durationOrDefault n.duration),
         persistent := n.persistent }] := by
  simp only [addNotification]
  split <;> rfl

theorem getTodoById_addNotification (i fid : String) (n : NotifDraft)
    (s : Store) :
    getTodoById i (addNotification fid n s) = getTodoById i s := by
  unfold getTodoById
  rw [addNotification_todos]

theorem find?_map_update (l : List Todo) (id : String) (g : Todo → Todo)
    (hg : ∀ x, (g x).id = x.id) :
    (l.map fun x => if x.id = id then g x else x).find?
        (fun x => decide (x.id = id)) =
      (l.find? fun x => decide (x.id = id)).map g := by
  induction l with
  | nil => rfl
  | cons a l ih =>
    simp only [List.map_cons]
    by_cases ha : a.id = id
    · rw [if_pos ha, List.find?_cons_of_pos _ (by simp [hg, ha]),
        List.find?_cons_of_pos _ (by simp [ha]), Option.map_some']
    · rw [if_neg ha, List.find?_cons_of_neg _ (by simp [ha]),
        List.find?_cons_of_neg _ (by simp [ha]), ih]

theorem getTodoById_map_update (s : Store) (id : String) (g : Todo → Todo)
    (hg : ∀ x, (g x).id = x.id) :
    getTodoById id
        { s with todos := s.todos.map fun x => if x.id = id then g x else x } =
      (getTodoById id s).map g :=
  find?_map_update s.todos id g hg

theorem getTodoById_updateTodo (nid : String) (now : Nat) (id : String)
    (u : UpdateTodoForm) (s : Store) :
    getTodoById id (updateTodo nid now id u s) =
      (getTodoById id s).map (applyUpdates u now) := by
  simp only [updateTodo]
  split
  · rw [getTodoById_addNotification]
    exact getTodoById_map_update s id _ (fun x => rfl)
  · exact getTodoById_map_update s id _ (fun x => rfl)

theorem updateTodo_notifications_found (nid : String) (now : Nat) (id : String)
    (u : UpdateTodoForm) (s : Store) (t : Todo)
    (h : getTodoById id s = some t) :
    ∃ n1, (updateTodo nid now id u s).notifications =
        s.notifications ++ [n1] ∧
      n1.title = "Todo updated" ∧ n1.type = .success := by
  have hs1 : getTodoById id
      { s with todos := s.todos.map fun todo =>
          if todo.id = id then applyUpdates u now todo else todo } =
      some (applyUpdates u now t) := by
    rw [getTodoById_map_update s id (applyUpdates u now) (fun x => rfl), h,
      Option.map_some']
  simp only [updateTodo, hs1]
  rw [addNotification_notifications]
  exact ⟨_, rfl, rfl, rfl⟩

/-! ### C1: import fails closed -/

/-- **C1** (amended).  On a `JSON.parse` failure `importData` leaves todos
and categories unchanged and appends exactly one notification of type
`'error'`; on a document that parses but carries no `todos`/`categories`
array (such as `{}`) the collections are also unchanged, but the single
appended notification has type `'success'`, not `'error'`. -/
theorem importData_fails_closed (s : Store) (nid : String) (d : ImportDoc)
    (hT : ∀ xs, d.todos ≠ .isArray xs)
    (hC : ∀ xs, d.categories ≠ .isArray xs) :
    ((importData nid none s).todos = s.todos ∧
     (importData nid none s).categories = s.categories ∧
     ∃ e, (importData nid none s).notifications = s.notifications ++ [e] ∧
       e.type = .error) ∧
    ((importData nid (some d) s).todos = s.todos ∧
     (importData nid (some d) s).categories = s.categories ∧
     ∃ e, (importData nid (some d) s).notifications = s.notifications ++ [e] ∧
       e.type = .success) := by
  have hmal : importData nid (some d) s =
      addNotification nid
        { type := .success, title := "Data imported",
          message := some "Your data has been successfully imported",
          duration := some 3000, persistent := none } s := by
    cases hdt : d.todos <;> cases hdc : d.categories <;>
      first
      | exact absurd hdt (hT _)
      | exact absurd hdc (hC _)
      | simp [importData, hdt, hdc]
  constructor
  · exact ⟨addNotification_todos nid _ s, addNotification_categories nid _ s,
      ⟨_, addNotification_notifications nid _ s, rfl⟩⟩
  · rw [hmal]
    exact ⟨addNotification_todos nid _ s, addNotification_categories nid _ s,
      ⟨_, addNotification_notifications nid _ s, rfl⟩⟩

/-- **C1** (witness). -/
theorem importData_fails_closed_witness :
    ((importData "n1" none (initialStore 0)).todos = (initialStore 0).todos ∧
     (importData "n1" none (initialStore 0)).categories =
       (initialStore 0).categories ∧
     ∃ e, (importData "n1" none (initialStore 0)).notifications =
       (initialStore 0).notifications ++ [e] ∧ e.type = .error) ∧
    ((importData "n1" (some ⟨.absent, .absent⟩) (initialStore 0)).todos =
       (initialStore 0).todos ∧
     (importData "n1" (some ⟨.absent, .absent⟩) (initialStore 0)).categories =
       (initialStore 0).categories ∧
     ∃ e, (importData "n1" (some ⟨.absent, .absent⟩)
         (initialStore 0)).notifications =
       (initialStore 0).notifications ++ [e] ∧ e.type = .success) :=
  importData_fails_closed (initialStore 0) "n1" ⟨.absent, .absent⟩
    (fun _ h => nomatch h) (fun _ h => nomatch h)

/-- **C1** (counterexample).  Importing the well-formed-but-empty document
`{}` appends exactly one notification and its type is `'success'`, not the
`'error'` the claim requires. -/
theorem importData_empty_doc_emits_success :
    (importData "n1" (some ⟨.absent, .absent⟩) (initialStore 0)).todos = [] ∧
    ((importData "n1" (some ⟨.absent, .absent⟩)
        (initialStore 0)).notifications.map NotificationState.type =
      [.success]) ∧
    NotifType.success ≠ NotifType.error := by
  refine ⟨rfl, rfl, ?_⟩
  decide

/-! ### C2: notification auto-dismiss -/

/-- **C2** (amended).  A notification added with `persistent = true` never
gets an auto-dismiss timer (the timer ledger is unchanged), and only an
explicit `removeNotification` with its id removes it; an unspecified
duration is stored as the 5000 fallback.  (The claim's `duration = 0`
clause fails: `0 || 5000` coerces to 5000 and a timer is scheduled.) -/
theorem addNotification_persistent_no_timer (s : Store) (n : NotifDraft)
    (fid : String) (hp : n.persistent = some true) :
    (addNotification fid n s).timers = s.timers ∧
    (removeNotification fid (addNotification fid n s)).notifications =
      s.notifications.filter (fun m => decide (m.id ≠ fid)) ∧
    (n.duration = none →
      (addNotification fid n s).notifications = s.notifications ++
        [{ id := fid, type := n.type, title := n.title, message := n.message,
           duration := some 5000, persistent := n.persistent }]) := by
  have hcond : truthyBool n.persistent = true := by rw [hp]; rfl
  refine ⟨?_, ?_, ?_⟩
  · unfold addNotification
    rw [if_neg]
    simp [hcond]
  · unfold removeNotification
    rw [addNotification_notifications, List.filter_append]
    simp
  · intro hd
    rw [addNotification_notifications, hd]
    rfl

/-- A persistent notification draft used as the concrete C2 witness
input. -/
def persistentDraft : NotifDraft :=
  { type := .info, title := "pinned", message := none,
    duration := none, persistent := some true }

/-- **C2** (witness). -/
theorem addNotification_persistent_no_timer_witness :
    (addNotification "n1" persistentDraft (initialStore 0)).timers =
      (initialStore 0).timers ∧
    (addNotification "n1" persistentDraft (initialStore 0)).notifications =
      (initialStore 0).notifications ++
        [{ id := "n1", type := persistentDraft.type,
           title := persistentDraft.title, message := persistentDraft.message,
           duration := some 5000, persistent := persistentDraft.persistent }] :=
  ⟨(addNotification_persistent_no_timer (initialStore 0) persistentDraft
      "n1" rfl).1,
   (addNotification_persistent_no_timer (initialStore 0) persistentDraft
      "n1" rfl).2.2 rfl⟩

/-- **C2** (counterexample).  A notification added with `duration = 0` and
no `persistent` flag gets the 5000 fallback, a timer is scheduled for it,
and that timer's firing removes it from the list — the timer path does
remove it. -/
theorem duration_zero_timer_removes :
    (addNotification "n1"
        { type := .info, title := "t", message := none, duration := some 0,
          persistent := none } (initialStore 0)).timers = [("n1", 5000)] ∧
    (fireTimer ("n1", 5000)
        (addNotification "n1"
          { type := .info, title := "t", message := none, duration := some 0,
            persistent := none } (initialStore 0))).notifications = [] ∧
    (addNotification "n1"
        { type := .info, title := "t", message := none, duration := some 0,
          persistent := none } (initialStore 0)).notifications.length = 1 := by
  refine ⟨rfl, rfl, rfl⟩

/-! ### C4: deleteCategory cascade -/

theorem deleteCategory_todos (nid : String) (now : Nat) (id : String)
    (s : Store) :
    (deleteCategory nid now id s).todos = s.todos.map fun todo =>
      if todo.category = id then
        { todo with category := "personal", updatedAt := now }
      else todo := by
  simp only [deleteCategory]
  split
  · rw [addNotification_todos]
  · rfl

theorem deleteCategory_categories (nid : String) (now : Nat) (id : String)
    (s : Store) :
    (deleteCategory nid now id s).categories =
      s.categories.filter fun cat => decide (cat.id ≠ id) := by
  simp only [deleteCategory]
  split
  · rw [addNotification_categories]
  · rfl

/-- **C4** (amended).  For a category id other than the default
`'personal'`, `deleteCategory` reassigns every item that referenced it to
`'personal'`, afterwards no item references the deleted id, and the
category itself is gone.  (For `id = 'personal'` itself the reassignment
writes the deleted id back, so items keep referencing it.) -/
theorem deleteCategory_reassigns (s : Store) (nid id : String) (now : Nat)
    (h : id ≠ "personal") :
    (∀ t ∈ (deleteCategory nid now id s).todos, t.category ≠ id) ∧
    (∀ t ∈ s.todos, t.category = id →
      ({ t with category := "personal", updatedAt := now } : Todo) ∈
        (deleteCategory nid now id s).todos) ∧
    (∀ c ∈ (deleteCategory nid now id s).categories, c.id ≠ id) := by
  refine ⟨?_, ?_, ?_⟩
  · rw [deleteCategory_todos]
    intro t ht
    obtain ⟨x, hx, rfl⟩ := List.mem_map.mp ht
    by_cases hxc : x.category = id
    · rw [if_pos hxc]
      intro hEq
      exact h hEq.symm
    · rw [if_neg hxc]
      exact hxc
  · rw [deleteCategory_todos]
    intro t ht htc
    exact List.mem_map.mpr ⟨t, ht, by rw [if_pos htc]⟩
  · rw [deleteCategory_categories]
    intro c hc
    simpa using List.of_mem_filter hc

/-- A sample todo in the `'work'` category. -/
def workTodo : Todo :=
  { id := "w", title := "Work item", description := none, completed := false,
    priority := .medium, category := "work", dueDate := none,
    createdAt := 0, updatedAt := 0, tags := [] }

/-- The store holding `workTodo` over the default categories. -/
def workStore : Store := { initialStore 0 with todos := [workTodo] }

/-- **C4** (witness). -/
theorem deleteCategory_reassigns_witness :
    (∀ t ∈ (deleteCategory "nid" 5 "work" workStore).todos,
      t.category ≠ "work") ∧
    (∀ t ∈ workStore.todos, t.category = "work" →
      ({ t with category := "personal", updatedAt := 5 } : Todo) ∈
        (deleteCategory "nid" 5 "work" workStore).todos) ∧
    (∀ c ∈ (deleteCategory "nid" 5 "work" workStore).categories,
      c.id ≠ "work") :=
  deleteCategory_reassigns workStore "nid" "work" 5 (by decide)

/-- A sample todo in the `'personal'` category. -/
def personalTodo : Todo :=
  { id := "p", title := "Personal item", description := none,
    completed := false, priority := .low, category := "personal",
    dueDate := none, createdAt := 0, updatedAt := 0, tags := [] }

/-- The store holding `personalTodo` over the default categories. -/
def personalStore : Store := { initialStore 0 with todos := [personalTodo] }

/-- **C4** (counterexample).  Deleting the default id `'personal'` removes
the category but the "reassignment" writes `'personal'` back, so the item
still references the deleted identifier. -/
theorem deleteCategory_personal_dangling :
    (deleteCategory "nid" 5 "personal" personalStore).todos.map
      Todo.category = ["personal"] ∧
    (∀ c ∈ (deleteCategory "nid" 5 "personal" personalStore).categories,
      c.id ≠ "personal") := by
  refine ⟨rfl, ?_⟩
  decide

/-! ### C8: create then lookup -/

/-- **C8**.  Provided the generated identifier is fresh (the property
`generateId` is relied on for), `addTodo` followed by `getTodoById` on the
new identifier returns an item whose id is the fresh one (different from
every pre-existing item's id), whose `completed` flag is `false`, and
whose creation and last-modified stamps are equal. -/
theorem addTodo_then_lookup (s : Store) (todoData : CreateTodoForm)
    (freshId nid : String) (now : Nat)
    (hfresh : ∀ t ∈ s.todos, t.id ≠ freshId) :
    ∃ t, getTodoById freshId (addTodo freshId nid now todoData s) = some t ∧
      t.id = freshId ∧ (∀ u ∈ s.todos, u.id ≠ t.id) ∧
      t.completed = false ∧ t.createdAt = t.updatedAt := by
  have key : getTodoById freshId (addTodo freshId nid now todoData s) =
      some { id := freshId, title := todoData.title,
             description := todoData.description, completed := false,
             priority := todoData.priority, category := todoData.category,
             dueDate := todoData.dueDate, createdAt := now, updatedAt := now,
             tags := todoData.tags } := by
    simp only [addTodo]
    rw [getTodoById_addNotification]
    unfold getTodoById
    rw [List.find?_append]
    have h1 : s.todos.find? (fun todo => decide (todo.id = freshId)) = none :=
      List.find?_eq_none.mpr fun x hx => by simp [hfresh x hx]
    rw [h1]
    simp
  exact ⟨_, key, rfl, fun u hu => hfresh u hu, rfl, rfl⟩

/-- A sample creation draft. -/
def sampleDraft : CreateTodoForm :=
  { title := "Buy coffee", description := some "beans",
    priority := .high, category := "shopping", dueDate := some 99,
    tags := ["errand"] }

/-- **C8** (witness). -/
theorem addTodo_then_lookup_witness :
    ∃ t, getTodoById "t1" (addTodo "t1" "n1" 7 sampleDraft
        (initialStore 0)) = some t ∧
      t.id = "t1" ∧ (∀ u ∈ (initialStore 0).todos, u.id ≠ t.id) ∧
      t.completed = false ∧ t.createdAt = t.updatedAt :=
  addTodo_then_lookup (initialStore 0) sampleDraft "t1" "n1" 7
    (fun t ht => absurd ht (by simp [initialStore]))

/-! ### C9 and C10: toggling -/

theorem getTodoById_toggleTodo_found (s : Store) (id nidU nidT : String)
    (now : Nat) (t : Todo) (h : getTodoById id s = some t) :
    getTodoById id (toggleTodo nidU nidT now id s) =
      some { t with completed := !t.completed, updatedAt := now } := by
  simp only [toggleTodo, h]
  rw [getTodoById_addNotification, getTodoById_updateTodo, h]
  rfl

/-- **C9**.  Two consecutive toggles on an item's id restore the original
completion flag, and the item afterwards differs from the original at
most in its last-modified timestamp. -/
theorem toggleTodo_involutive (s : Store) (id nidU1 nidT1 nidU2 nidT2 : String)
    (now1 now2 : Nat) (t : Todo) (h : getTodoById id s = some t) :
    ∃ t', getTodoById id (toggleTodo nidU2 nidT2 now2 id
        (toggleTodo nidU1 nidT1 now1 id s)) = some t' ∧
      t'.completed = t.completed ∧
      t' = { t with updatedAt := t'.updatedAt } ∧ t'.updatedAt = now2 := by
  have h1 := getTodoById_toggleTodo_found s id nidU1 nidT1 now1 t h
  have h2 := getTodoById_toggleTodo_found _ id nidU2 nidT2 now2 _ h1
  refine ⟨_, h2, ?_, ?_, rfl⟩
  · cases t
    simp
  · cases t
    simp

/-- A completed sample todo for the toggle witnesses. -/
def gymTodo : Todo :=
  { id := "g", title := "Gym", description := none, completed := true,
    priority := .urgent, category := "health", dueDate := none,
    createdAt := 1, updatedAt := 2, tags := ["fit"] }

/-- The store holding a single completed todo, for the toggle witnesses. -/
def toggleStore : Store := { initialStore 0 with todos := [gymTodo] }

/-- **C9** (witness). -/
theorem toggleTodo_involutive_witness :
    ∃ t', getTodoById "g" (toggleTodo "u2" "t2" 9 "g"
        (toggleTodo "u1" "t1" 8 "g" toggleStore)) = some t' ∧
      t'.completed = gymTodo.completed ∧
      t' = { gymTodo with updatedAt := t'.updatedAt } ∧
      t'.updatedAt = 9 :=
  toggleTodo_involutive toggleStore "g" "u1" "t1" "u2" "t2" 8 9 gymTodo rfl

/-- **C10**.  A single toggle on a present item appends exactly two
notifications: first the inner `updateTodo`'s `'Todo updated'` success
notification, then the toggle's own, titled `'Todo completed'` or
`'Todo reopened'` according to the resulting state. -/
theorem toggleTodo_two_notifications (s : Store) (id nidU nidT : String)
    (now : Nat) (t : Todo) (h : getTodoById id s = some t) :
    ∃ n1 n2, (toggleTodo nidU nidT now id s).notifications =
        s.notifications ++ [n1, n2] ∧
      n1.title = "Todo updated" ∧ n1.type = .success ∧
      n2.title = (if t.completed then "Todo reopened" else "Todo completed") ∧
      n2.type = .success := by
  simp only [toggleTodo, h]
  obtain ⟨n1, hupd, htitle, htype⟩ :=
    updateTodo_notifications_found nidU now id
      { completed := some (!t.completed) } s t h
  rw [addNotification_notifications, hupd, List.append_assoc]
  refine ⟨n1, _, rfl, htitle, htype, ?_, rfl⟩
  cases hc : t.completed <;> simp

/-- **C10** (witness). -/
theorem toggleTodo_two_notifications_witness :
    ∃ n1 n2, (toggleTodo "u1" "t1" 8 "g" toggleStore).notifications =
        toggleStore.notifications ++ [n1, n2] ∧
      n1.title = "Todo updated" ∧ n1.type = .success ∧
      n2.title = (if gymTodo.completed then "Todo reopened"
        else "Todo completed") ∧
      n2.type = .success :=
  toggleTodo_two_notifications toggleStore "g" "u1" "t1" 8 gymTodo rfl

end TodoApp
